import Mathlib

/-!
Verification of the home-server JWT authentication gateway.

This file shallowly embeds the core of the repository:
the token codec and issuer operations of auth-service/services/auth.go,
the gateway request authenticator and public-key cache of
gateway/middleware/auth.go, and the proxy forwarders of
gateway/services/proxy.go and gateway/app/services/services.go.

Cryptography is modelled symbolically: an RSA key pair is identified by a
natural number; a signature produced with the private key of pair `k`
verifies exactly against the public key of pair `k`.  Time is modelled in
whole seconds as an integer (JWT NumericDate granularity).  A token string
is modelled by its decoding `Option Token`: `none` stands for a string the
JWT library fails to parse (MalformedToken).
-/

namespace HomeServer

/-- JWT signing algorithms that can appear in a token header.  `algNone`
stands for the unsecured alg value. -/
inductive Alg
  | RS256
  | RS384
  | RS512
  | PS256
  | HS256
  | ES256
  | algNone
deriving DecidableEq, Repr

/-- The type assertion `token.Method.(*jwt.SigningMethodRSA)` in both
validators succeeds exactly for the RSA PKCS#1 v1.5 methods RS256/RS384/RS512
(RSA-PSS and HMAC methods are distinct types in golang-jwt). -/
def Alg.isRSAMethod : Alg → Bool
  | .RS256 => true
  | .RS384 => true
  | .RS512 => true
  | _ => false

/-- The claim set of auth-service/services/auth.go `JWTClaims` (custom fields
user_id, email, is_admin, type) together with the registered claims the code
stamps (issuer, subject, iat, exp, nbf).  The Go field `Type` is rendered
`tokType` because `Type` is reserved in Lean. -/
structure JWTClaims where
  userID : String
  email : String
  isAdmin : Bool
  tokType : String
  issuer : String
  subject : String
  issuedAt : Int
  expiresAt : Int
  notBefore : Int
deriving DecidableEq, Repr

/-- `models.TokenTypeAccess`. -/
def TokenTypeAccess : String := "access"

/-- `models.TokenTypeRefresh`. -/
def TokenTypeRefresh : String := "refresh"

/-- A decoded signed token: the header's declared algorithm, the claim set,
and the signature, modelled symbolically by the identifier of the key pair
whose private key produced it. -/
structure Token where
  alg : Alg
  claims : JWTClaims
  sig : Nat
deriving DecidableEq, Repr

/-- Failure modes of `jwt.ParseWithClaims` under a keyfunc that rejects
non-RSA signing methods. -/
inductive ParseError
  | malformed
  | wrongAlg (a : Alg)
  | signatureInvalid
  | expired
  | notYetValid
deriving DecidableEq, Repr

/-- `jwt.ParseWithClaims(tokenString, &JWTClaims, keyfunc)` as called by both
validators: the keyfunc rejects any method that is not `*jwt.SigningMethodRSA`
and otherwise returns `pubKey`; then the signature is verified, then the
registered claims are validated (exp strictly in the future, nbf not in the
future, no leeway), in the order of golang-jwt/v5. -/
def parseWithClaims (tok? : Option Token) (pubKey : Nat) (now : Int) :
    Except ParseError JWTClaims :=
  match tok? with
  | none => .error .malformed
  | some tok =>
    if !tok.alg.isRSAMethod then .error (.wrongAlg tok.alg)
    else if tok.sig ≠ pubKey then .error .signatureInvalid
    else if tok.claims.expiresAt ≤ now then .error .expired
    else if now < tok.claims.notBefore then .error .notYetValid
    else .ok tok.claims

/-- `models.User` (common/models): id from BaseModel, email, name, stored
bcrypt password hash, admin flag. -/
structure User where
  id : Nat
  email : String
  name : String
  password : String
  isAdmin : Bool
deriving DecidableEq, Repr

/-- JWT configuration consumed by the issuer (common/config `JWTConfig`):
token lifetimes in whole seconds and the issuer string. -/
structure JWTSettings where
  accessTokenDuration : Int
  refreshTokenDuration : Int
  issuer : String
deriving DecidableEq, Repr

/-- `GenerateTokenPair` (auth-service/services/auth.go): stamps identical
custom claims on an access and a refresh token, with issuedAt = notBefore =
now and expiresAt = now plus the configured lifetime, signs both with RS256
under the issuer's private key, and returns the pair together with
`expiresIn` = the access lifetime in seconds. -/
def GenerateTokenPair (cfg : JWTSettings) (privKey : Nat) (user : User)
    (now : Int) : Token × Token × Int :=
  let accessClaims : JWTClaims :=
    { userID := toString user.id
      email := user.email
      isAdmin := user.isAdmin
      tokType := TokenTypeAccess
      issuer := cfg.issuer
      subject := toString user.id
      issuedAt := now
      expiresAt := now + cfg.accessTokenDuration
      notBefore := now }
  let refreshClaims : JWTClaims :=
    { accessClaims with
      tokType := TokenTypeRefresh
      expiresAt := now + cfg.refreshTokenDuration }
  (⟨.RS256, accessClaims, privKey⟩, ⟨.RS256, refreshClaims, privKey⟩,
    cfg.accessTokenDuration)

/-- Errors of the issuer-side `ValidateJWTToken`. -/
inductive TokenValidationError
  | parseFailed (e : ParseError)
  | invalidTokenType
deriving DecidableEq, Repr

/-- `ValidateJWTToken` (auth-service/services/auth.go): parse and verify
against the issuer's own public key, then require the type claim to be
"access". -/
def ValidateJWTToken (tok? : Option Token) (publicKey : Nat) (now : Int) :
    Except TokenValidationError JWTClaims :=
  match parseWithClaims tok? publicKey now with
  | .error e => .error (.parseFailed e)
  | .ok claims =>
    if claims.tokType ≠ TokenTypeAccess then .error .invalidTokenType
    else .ok claims

/-- The gateway's public-key cache state (gateway/middleware/auth.go package
variables `cachedPublicKey` and `publicKeyExpiry`). -/
structure KeyCache where
  cachedPublicKey : Option Nat
  publicKeyExpiry : Int
deriving DecidableEq, Repr

/-- Outcome of one attempt of the fetch-and-parse pipeline inside
`getPublicKey`: the HTTP GET to the auth-service public-key endpoint, the
status check, the JSON decode of `PublicKeyResponse`, the PEM decode, and the
RSA type assertion; `success k` is a fetch that passed every step and yielded
the RSA public key of pair `k`. -/
inductive FetchOutcome
  | httpError
  | non200 (body : String)
  | jsonDecodeError
  | pemDecodeError
  | notRSAKey
  | success (key : Nat)
deriving DecidableEq, Repr

/-- The error returned by `getPublicKey` for each failing step. -/
inductive KeyFetchFailure
  | httpError
  | non200 (body : String)
  | jsonDecodeError
  | pemDecodeError
  | notRSAKey
deriving DecidableEq, Repr

/-- The error, if any, that `getPublicKey` reports for a given outcome of the
fetch pipeline. -/
def fetchFailure : FetchOutcome → Option KeyFetchFailure
  | .httpError => some .httpError
  | .non200 b => some (.non200 b)
  | .jsonDecodeError => some .jsonDecodeError
  | .pemDecodeError => some .pemDecodeError
  | .notRSAKey => some .notRSAKey
  | .success _ => none

/-- The refetch path of `getPublicKey` (everything after the double-check
misses): on a failing step, return the error and leave both cache variables
untouched; on success, store the key and set the expiry one hour (3600 s)
from now. -/
def refetchPublicKey (st : KeyCache) (now : Int) (fetch : FetchOutcome) :
    Except KeyFetchFailure Nat × KeyCache :=
  match fetch with
  | .httpError => (.error .httpError, st)
  | .non200 b => (.error (.non200 b), st)
  | .jsonDecodeError => (.error .jsonDecodeError, st)
  | .pemDecodeError => (.error .pemDecodeError, st)
  | .notRSAKey => (.error .notRSAKey, st)
  | .success k => (.ok k, { cachedPublicKey := some k, publicKeyExpiry := now + 3600 })

/-- `getPublicKey` (gateway/middleware/auth.go), sequentially: return the
cached key if present and unexpired (`time.Now().Before(publicKeyExpiry)` is
a strict comparison), otherwise take the refetch path.  The write-lock
double-check re-evaluates the same condition, so the sequential behaviour
collapses to one check; the interleaved behaviour is modelled separately by
`CStep` below. -/
def getPublicKey (st : KeyCache) (now : Int) (fetch : FetchOutcome) :
    Except KeyFetchFailure Nat × KeyCache :=
  match st.cachedPublicKey with
  | some k => if now < st.publicKeyExpiry then (.ok k, st)
              else refetchPublicKey st now fetch
  | none => refetchPublicKey st now fetch

/-- The cache-hit condition of `getPublicKey`:
`cachedPublicKey != nil && time.Now().Before(publicKeyExpiry)`. -/
def keyCacheHit (st : KeyCache) (now : Int) : Bool :=
  match st.cachedPublicKey with
  | some _ => decide (now < st.publicKeyExpiry)
  | none => false

/-- Errors of the gateway-side `validateJWTLocally`. -/
inductive AuthError
  | keyUnavailable (e : KeyFetchFailure)
  | parseFailed (e : ParseError)
  | wrongTokenType
deriving DecidableEq, Repr

/-- `validateJWTLocally` (gateway/middleware/auth.go): obtain the public key
from the cache (possibly refetching), parse and verify the token against it,
then require the type claim to be `models.TokenTypeAccess`. -/
def validateJWTLocally (st : KeyCache) (now : Int) (fetch : FetchOutcome)
    (tok? : Option Token) : Except AuthError JWTClaims × KeyCache :=
  match getPublicKey st now fetch with
  | (.error e, st') => (.error (.keyUnavailable e), st')
  | (.ok publicKey, st') =>
    match parseWithClaims tok? publicKey now with
    | .error e => (.error (.parseFailed e), st')
    | .ok claims =>
      if claims.tokType ≠ TokenTypeAccess then (.error .wrongTokenType, st')
      else (.ok claims, st')

/-- Result of the gateway auth middleware on one request: abort with an HTTP
status and the value of the JSON error field, or proceed with the identity
stored in the request context. -/
inductive AuthOutcome
  | abort (status : Nat) (errorBody : String)
  | proceed (userID email : String) (isAdmin : Bool)
deriving DecidableEq, Repr

/-- Split a character list at its first space, if any. -/
def splitFirstSpace : List Char → Option (List Char × List Char)
  | [] => none
  | c :: cs =>
    if c = ' ' then some ([], cs)
    else
      match splitFirstSpace cs with
      | none => none
      | some (before, after) => some (c :: before, after)

/-- Go `strings.SplitN(s, " ", 2)`: the whole string when it contains no
space, otherwise the part before the first space and everything after it. -/
def goSplitN2Space (s : String) : List String :=
  match splitFirstSpace s.data with
  | none => [s]
  | some (before, after) => [⟨before⟩, ⟨after⟩]

/-- `AuthMiddleware` (gateway/middleware/auth.go), Required mode: missing
header aborts 401; a header that does not split as Bearer plus token aborts
401; a failure of `validateJWTLocally` aborts 401 with the uniform body
value; success stores user_id, email, is_admin in the context and proceeds.
The token string is represented by its decoding `decode token`. -/
def AuthMiddleware (decode : String → Option Token) (st : KeyCache)
    (now : Int) (fetch : FetchOutcome) (authHeader : String) :
    AuthOutcome × KeyCache :=
  if authHeader = "" then (.abort 401 "Authorization header required", st)
  else
    match goSplitN2Space authHeader with
    | [scheme, token] =>
      if scheme ≠ "Bearer" then
        (.abort 401 "Invalid authorization header format. Expected Bearer <token>", st)
      else
        match validateJWTLocally st now fetch (decode token) with
        | (.error _, st') => (.abort 401 "Invalid or expired token", st')
        | (.ok claims, st') =>
          (.proceed claims.userID claims.email claims.isAdmin, st')
    | _ => (.abort 401 "Invalid authorization header format. Expected Bearer <token>", st)

/-- Abstract model of `bcrypt.GenerateFromPassword`: a deterministic tagged
injective encoding standing for the password hash (the properties the code
relies on: verifying a password against its own hash succeeds, against the
hash of a different password fails). -/
def hashPassword (password : String) : String := "bcrypt-hash-of;" ++ password

/-- `verifyPassword` (auth-service/services/auth.go):
`bcrypt.CompareHashAndPassword(hash, password)` succeeds exactly when the
hash is the hash of the password. -/
def verifyPassword (password hash : String) : Bool := hash == hashPassword password

/-- Mutable issuer-side state visible to the auth service: the user table
behind `UserRepository`. -/
structure AuthState where
  users : List User
deriving DecidableEq, Repr

/-- `UserRepository.GetByEmail` (common/db/user_repository.go): first user
with the given email, `nil` (here `none`) when the record is not found. -/
def GetByEmail (users : List User) (email : String) : Option User :=
  users.find? (fun u => u.email == email)

/-- `validateUserCredentials` (auth-service/services/auth.go): look up the
user by email; a missing user yields the error string "user not found"; a
password that does not verify against the stored hash yields the error
string "invalid credentials".  Infrastructure database errors are outside
the model.  The error value is the string because the login handler returns
`err.Error()` verbatim in the response body. -/
def validateUserCredentials (st : AuthState) (email password : String) :
    Except String User :=
  match GetByEmail st.users email with
  | none => .error "user not found"
  | some user =>
    if !verifyPassword password user.password then .error "invalid credentials"
    else .ok user

/-- `Login` (auth-service/services/auth.go): validate credentials, then
generate the token pair. -/
def Login (cfg : JWTSettings) (privKey : Nat) (st : AuthState)
    (email password : String) (now : Int) : Except String (Token × Token × Int) :=
  match validateUserCredentials st email password with
  | .error e => .error e
  | .ok user => .ok (GenerateTokenPair cfg privKey user now)

/-- HTTP response of the login and refresh handlers (handlers package):
either a JSON error object with a status, or the 200 `LoginResponse`. -/
inductive TokenHttpResponse
  | errorResp (status : Nat) (errorBody : String)
  | success (accessToken refreshToken : Token) (tokenType : String) (expiresIn : Int)
deriving DecidableEq, Repr

/-- `LoginHandler` (auth-service handlers): on a service error, respond 401
with body error field set to `err.Error()`; on success respond 200 with the
token pair, token_type Bearer and expires_in. -/
def LoginHandler (cfg : JWTSettings) (privKey : Nat) (st : AuthState)
    (email password : String) (now : Int) : TokenHttpResponse :=
  match Login cfg privKey st email password now with
  | .error e => .errorResp 401 e
  | .ok (a, r, expiresIn) => .success a r "Bearer" expiresIn

/-- `InvalidateRefreshToken` (auth-service/services/auth.go): the body only
logs; no revocation is recorded anywhere and the result is always nil. -/
def InvalidateRefreshToken (st : AuthState) (tokenString : String)
    (userID : Nat) : Except String Unit × AuthState :=
  (.ok (), st)

/-- `Logout` (auth-service/services/auth.go): stateless JWTs, so logout only
calls `InvalidateRefreshToken` and propagates its (always nil) result. -/
def Logout (st : AuthState) (refreshToken : String) (userID : Nat) :
    Except String Unit × AuthState :=
  match InvalidateRefreshToken st refreshToken userID with
  | (.error e, st') => (.error e, st')
  | (.ok _, st') => (.ok (), st')

/-- HTTP response of the logout handler. -/
inductive LogoutHttpResponse
  | errorResp (status : Nat) (errorBody : String)
  | okResp (status : Nat) (message : String)
deriving DecidableEq, Repr

/-- The accumulation loop of Go `strconv.ParseUint(s, 10, 64)`: a non-digit
character is a syntax error yielding value 0; exceeding the 64-bit range
yields the maximal value with a range error; otherwise the decimal value. -/
def goParseUintLoop : List Char → Nat → Nat × Bool
  | [], n => (n, true)
  | c :: cs, n =>
    if !c.isDigit then (0, false)
    else
      if 2 ^ 64 ≤ n * 10 + (c.toNat - 48) then (2 ^ 64 - 1, false)
      else goParseUintLoop cs (n * 10 + (c.toNat - 48))

/-- Go `strconv.ParseUint(s, 10, 64)` as the (value, ok) pair the caller
sees: the empty string is a syntax error. -/
def goParseUint64 (s : String) : Nat × Bool :=
  match s.data with
  | [] => (0, false)
  | cs => goParseUintLoop cs 0

/-- `LogoutHandler` (auth-service handlers): 401 when the middleware set no
user_id in the context; otherwise parse the user id (parse error discarded),
call `Logout`, and answer 500 on error or 200 with the success message. -/
def LogoutHandler (st : AuthState) (userIdCtx : Option String)
    (refreshToken : String) : LogoutHttpResponse × AuthState :=
  match userIdCtx with
  | none => (.errorResp 401 "Invalid authentication context", st)
  | some s =>
    match Logout st refreshToken (goParseUint64 s).1 with
    | (.error _, st') => (.errorResp 500 "Failed to logout user", st')
    | (.ok _, st') => (.okResp 200 "Logged out successfully", st')

/-- Errors of `ValidateRefreshToken`. -/
inductive RefreshError
  | parseFailed (e : ParseError)
  | invalidTokenTypeForRefresh
deriving DecidableEq, Repr

/-- The user value `ValidateRefreshToken` rebuilds from the claims alone:
`strconv.ParseUint(claims.UserID, 10, 0)` with the error discarded, the
email and admin flag copied from the claims, every other field left at its
zero value. -/
def refreshReconstructedUser (claims : JWTClaims) : User :=
  { id := (goParseUint64 claims.userID).1
    email := claims.email
    name := ""
    password := ""
    isAdmin := claims.isAdmin }

/-- `ValidateRefreshToken` (auth-service/services/auth.go): parse and verify
the token against the issuer public key, require type "refresh", then
rebuild the user purely from the claims: the user id is parsed with
`strconv.ParseUint` and the parse error is discarded with a blank
identifier, and no database lookup is made (the `st` argument is unused,
mirroring the unused repository of the receiver). -/
def ValidateRefreshToken (st : AuthState) (tok? : Option Token)
    (publicKey : Nat) (now : Int) : Except RefreshError User :=
  match parseWithClaims tok? publicKey now with
  | .error e => .error (.parseFailed e)
  | .ok claims =>
    if claims.tokType ≠ TokenTypeRefresh then .error .invalidTokenTypeForRefresh
    else .ok (refreshReconstructedUser claims)

/-- `RefreshHandler` (auth-service handlers): validate the refresh token
(401 on failure), then generate and return a fresh token pair for the
reconstructed user. -/
def RefreshHandler (cfg : JWTSettings) (privKey publicKey : Nat)
    (st : AuthState) (tok? : Option Token) (now : Int) : TokenHttpResponse :=
  match ValidateRefreshToken st tok? publicKey now with
  | .error _ => .errorResp 401 "Invalid or expired refresh token"
  | .ok user =>
    match GenerateTokenPair cfg privKey user now with
    | (a, r, expiresIn) => .success a r "Bearer" expiresIn

/-- A backend HTTP response relayed by the gateway proxy. -/
structure HttpResponse where
  statusCode : Nat
  headers : List (String × String)
  body : String
deriving DecidableEq, Repr

/-- Outcome of the single `client.Do` transport call in
gateway/services/proxy.go: a transport error or a backend response. -/
inductive TransportResult
  | failure
  | response (r : HttpResponse)
deriving DecidableEq, Repr

/-- What the proxy hands back to the client. -/
inductive ProxyOutcome
  | jsonError (status : Nat) (errorBody : String)
  | relayed (r : HttpResponse)
deriving DecidableEq, Repr

/-- `ProxyRequest` (gateway/services/proxy.go), together with the number of
transport attempts it issues: a request-construction failure answers 500
with zero attempts; otherwise exactly one `client.Do` is issued and a
transport error immediately answers 502 with the per-service unavailability
message, while a response is relayed verbatim. -/
def ProxyRequest (serviceName : String) (newRequestOk : Bool)
    (transport : TransportResult) : ProxyOutcome × Nat :=
  if !newRequestOk then (.jsonError 500 "Failed to create proxy request", 0)
  else
    match transport with
    | .failure =>
      (.jsonError 502 ("Service " ++ serviceName ++ " is unavailable"), 1)
    | .response r => (.relayed r, 1)

/-- The retry loop of the discovery-based `ProxyRequest`
(gateway/app/services/services.go) from a given attempt index with
`remaining` further attempts allowed, returning the result and the number of
transport calls made: each iteration issues one `client.Get`; a success
returns immediately; otherwise it sleeps and retries until the budget is
exhausted. -/
def appProxyLoop (transport : Nat → Option HttpResponse) (attempt remaining : Nat) :
    Option HttpResponse × Nat :=
  match transport attempt with
  | some r => (some r, 1)
  | none =>
    match remaining with
    | 0 => (none, 1)
    | m + 1 =>
      match appProxyLoop transport (attempt + 1) m with
      | (res, count) => (res, count + 1)

/-- The discovery-based `ProxyRequest` (gateway/app/services/services.go):
`for attempt := 0; attempt <= MaxRetries; attempt++`, so `maxRetries + 1`
transport attempts at most, with a delay between attempts; after exhausting
them it returns an error (mapped by its caller to an error response). -/
def appProxyRequest (maxRetries : Nat) (transport : Nat → Option HttpResponse) :
    Option HttpResponse × Nat :=
  appProxyLoop transport 0 maxRetries

instance {ε α : Type} [DecidableEq ε] [DecidableEq α] :
    DecidableEq (Except ε α) := fun a b =>
  match a, b with
  | .ok x, .ok y =>
    if h : x = y then .isTrue (by rw [h])
    else .isFalse (by intro hc; cases hc; exact h rfl)
  | .error x, .error y =>
    if h : x = y then .isTrue (by rw [h])
    else .isFalse (by intro hc; cases hc; exact h rfl)
  | .ok _, .error _ => .isFalse (by intro hc; cases hc)
  | .error _, .ok _ => .isFalse (by intro hc; cases hc)

/-- Program counter of one goroutine executing `getPublicKey`
(gateway/middleware/auth.go): before RLock; holding the read lock about to
check the cache; between RUnlock and Lock; holding the write lock about to
double-check; finished with a result. -/
inductive TPc
  | start
  | rLocked
  | needWrite
  | wLocked
  | done (res : Except KeyFetchFailure Nat)
deriving DecidableEq, Repr

/-- Interleaved state of the public-key cache and the goroutines calling
`getPublicKey`: the two cache variables, the reader/writer state of the
RWMutex, the number of outbound fetches issued so far, and the multiset of
thread program counters. -/
structure CacheSys where
  cachedPublicKey : Option Nat
  publicKeyExpiry : Int
  writer : Bool
  readers : Nat
  fetchCount : Nat
  threads : Multiset TPc

/-- One atomic step of one goroutine in `getPublicKey`, at a fixed instant
`now` and with the issuer fetch deterministically succeeding with `key`
(the scenario of the concurrency contract).  `rlock` models RLock (enabled
while no writer holds the lock, so readers never wait for each other);
`rhit` the fast path returning the valid cached key and RUnlock; `rmiss`
the RUnlock on a cold or expired cache; `wlock` acquiring the exclusive
lock; `whit` the double-check returning the key another goroutine cached
meanwhile, and Unlock; `wfetch` the fetch, store of key and expiry
(now + 3600), and Unlock, all under the exclusive lock. -/
inductive CStep (now : Int) (key : Nat) : TPc → TPc → CacheSys → CacheSys → Prop
  | rlock (σ : CacheSys) (rest : Multiset TPc) :
      σ.writer = false → σ.threads = .start ::ₘ rest →
      CStep now key .start .rLocked σ
        { σ with readers := σ.readers + 1, threads := .rLocked ::ₘ rest }
  | rhit (σ : CacheSys) (rest : Multiset TPc) (k : Nat) :
      σ.cachedPublicKey = some k → now < σ.publicKeyExpiry →
      σ.threads = .rLocked ::ₘ rest →
      CStep now key .rLocked (.done (.ok k)) σ
        { σ with readers := σ.readers - 1, threads := .done (.ok k) ::ₘ rest }
  | rmiss (σ : CacheSys) (rest : Multiset TPc) :
      (σ.cachedPublicKey = none ∨ σ.publicKeyExpiry ≤ now) →
      σ.threads = .rLocked ::ₘ rest →
      CStep now key .rLocked .needWrite σ
        { σ with readers := σ.readers - 1, threads := .needWrite ::ₘ rest }
  | wlock (σ : CacheSys) (rest : Multiset TPc) :
      σ.writer = false → σ.readers = 0 → σ.threads = .needWrite ::ₘ rest →
      CStep now key .needWrite .wLocked σ
        { σ with writer := true, threads := .wLocked ::ₘ rest }
  | whit (σ : CacheSys) (rest : Multiset TPc) (k : Nat) :
      σ.cachedPublicKey = some k → now < σ.publicKeyExpiry →
      σ.threads = .wLocked ::ₘ rest →
      CStep now key .wLocked (.done (.ok k)) σ
        { σ with writer := false, threads := .done (.ok k) ::ₘ rest }
  | wfetch (σ : CacheSys) (rest : Multiset TPc) :
      (σ.cachedPublicKey = none ∨ σ.publicKeyExpiry ≤ now) →
      σ.threads = .wLocked ::ₘ rest →
      CStep now key .wLocked (.done (.ok key)) σ
        { cachedPublicKey := some key
          publicKeyExpiry := now + 3600
          writer := false
          readers := σ.readers
          fetchCount := σ.fetchCount + 1
          threads := .done (.ok key) ::ₘ rest }

/-- A step by some goroutine. -/
def SysStep (now : Int) (key : Nat) (σ σ' : CacheSys) : Prop :=
  ∃ pc pc', CStep now key pc pc' σ σ'

/-- Interleaved executions: reflexive-transitive closure of `SysStep`. -/
def SysReach (now : Int) (key : Nat) : CacheSys → CacheSys → Prop :=
  Relation.ReflTransGen (SysStep now key)

/-- Initial state: cache variables `c0`/`e0`, lock free, no fetch issued,
`n` goroutines about to call `getPublicKey`. -/
def initSys (c0 : Option Nat) (e0 : Int) (n : Nat) : CacheSys :=
  { cachedPublicKey := c0
    publicKeyExpiry := e0
    writer := false
    readers := 0
    fetchCount := 0
    threads := Multiset.replicate n .start }

/-- Every goroutine has returned from `getPublicKey`. -/
def allDone (σ : CacheSys) : Prop :=
  ∀ pc ∈ σ.threads, ∃ r, pc = TPc.done r

/-- Invariant of a refetch storm started on a cold or expired cache: either
no fetch has been issued yet, the cache variables are untouched and no
goroutine has returned, or exactly one fetch has been issued and the cache
holds the fetched key with a fresh expiry; in either case every returned
goroutine got the fetched key, and the number of goroutines is unchanged. -/
def ColdInv (c0 : Option Nat) (e0 now : Int) (key : Nat) (n : Nat)
    (σ : CacheSys) : Prop :=
  ((σ.fetchCount = 0 ∧ σ.cachedPublicKey = c0 ∧ σ.publicKeyExpiry = e0 ∧
      ∀ r, TPc.done r ∉ σ.threads)
   ∨ (σ.fetchCount = 1 ∧ σ.cachedPublicKey = some key ∧
      σ.publicKeyExpiry = now + 3600)) ∧
  (∀ r, TPc.done r ∈ σ.threads → r = .ok key) ∧
  Multiset.card σ.threads = n

/-- Invariant of executions started on a warm cache (valid key `k`, expiry
`e0` strictly in the future): the cache is never touched, no goroutine ever
seeks or holds the write lock, no fetch is issued, and every returned
goroutine got the cached key. -/
def WarmInv (k : Nat) (e0 now : Int) (σ : CacheSys) : Prop :=
  σ.cachedPublicKey = some k ∧ σ.publicKeyExpiry = e0 ∧ σ.writer = false ∧
  σ.fetchCount = 0 ∧
  TPc.needWrite ∉ σ.threads ∧ TPc.wLocked ∉ σ.threads ∧
  (∀ r, TPc.done r ∈ σ.threads → r = .ok k)

/-! ## Theorems -/

/-- C2: for every user record, configured issuer and TTL, verifying the
access token produced by `GenerateTokenPair` against the matching public key
at any time within [issuedAt, expiresAt) succeeds and returns exactly the
input data: the same UserID, Email, IsAdmin, token type "access", the
stamped issuer, issuedAt = notBefore = signing time, and expiresAt = signing
time + access TTL. -/
theorem c2_token_roundtrip (cfg : JWTSettings) (k : Nat) (user : User)
    (now t : Int) (h1 : now ≤ t) (h2 : t < now + cfg.accessTokenDuration) :
    ValidateJWTToken (some (GenerateTokenPair cfg k user now).1) k t =
      .ok { userID := toString user.id
            email := user.email
            isAdmin := user.isAdmin
            tokType := TokenTypeAccess
            issuer := cfg.issuer
            subject := toString user.id
            issuedAt := now
            expiresAt := now + cfg.accessTokenDuration
            notBefore := now } := by
  have hexp : ¬ (now + cfg.accessTokenDuration ≤ t) := by omega
  have hnbf : ¬ (t < now) := by omega
  simp [GenerateTokenPair, ValidateJWTToken, parseWithClaims, Alg.isRSAMethod,
    TokenTypeAccess, hexp, hnbf]

/-- C2 witness: a concrete round trip for user 42 with a 1800 s access TTL,
verified at second 1799 of the window. -/
theorem c2_token_roundtrip_witness :
    ValidateJWTToken
        (some (GenerateTokenPair ⟨1800, 604800, "home-server-auth"⟩ 5
          ⟨42, "alice@example.com", "Alice", "h", true⟩ 1000).1) 5 2799 =
      .ok { userID := "42"
            email := "alice@example.com"
            isAdmin := true
            tokType := TokenTypeAccess
            issuer := "home-server-auth"
            subject := "42"
            issuedAt := 1000
            expiresAt := 1000 + 1800
            notBefore := 1000 } :=
  c2_token_roundtrip ⟨1800, 604800, "home-server-auth"⟩ 5
    ⟨42, "alice@example.com", "Alice", "h", true⟩ 1000 2799
    (by decide) (by decide)

/-- C5: when `getPublicKey` takes the refetch path and the fetch fails at
any step, it returns the corresponding error and the cache state — the
cached key and its expiry — is exactly what it was before the attempt; on a
failing fetch the cache state is preserved unconditionally, so a still-valid
cached key is neither corrupted nor cleared. -/
theorem c5_refetch_failure_preserves_cache (st : KeyCache) (now : Int)
    (fetch : FetchOutcome) (e : KeyFetchFailure)
    (hf : fetchFailure fetch = some e) :
    (getPublicKey st now fetch).2 = st ∧
    (keyCacheHit st now = false → getPublicKey st now fetch = (.error e, st)) := by
  rcases hc : st.cachedPublicKey with _ | k
  · cases fetch <;>
      simp_all [getPublicKey, refetchPublicKey, fetchFailure, keyCacheHit, hc]
  · by_cases ht : now < st.publicKeyExpiry
    · constructor
      · simp [getPublicKey, hc, ht]
      · intro h
        simp [keyCacheHit, hc, ht] at h
    · cases fetch <;>
        simp_all [getPublicKey, refetchPublicKey, fetchFailure, keyCacheHit, hc, ht,
          if_neg ht]

/-- C5 witness: an expired cached key (key 3, expired at 100, now 200)
survives a PEM-decode failure untouched, and the call errors. -/
theorem c5_refetch_failure_witness :
    (getPublicKey ⟨some 3, 100⟩ 200 .pemDecodeError).2 = ⟨some 3, 100⟩ ∧
    (keyCacheHit ⟨some 3, 100⟩ 200 = false →
      getPublicKey ⟨some 3, 100⟩ 200 .pemDecodeError =
        (.error .pemDecodeError, ⟨some 3, 100⟩)) :=
  c5_refetch_failure_preserves_cache ⟨some 3, 100⟩ 200 .pemDecodeError
    .pemDecodeError rfl

/-- C6: a token whose header declares a signing algorithm outside the RSA
scheme expected by the keyfunc (for example HMAC) is rejected with the
wrong-algorithm error instead of being verified under the weaker algorithm,
both by the gateway-side validator (whenever it holds a public key) and by
the issuer-side validator. -/
theorem c6_wrong_algorithm_rejected :
    (∀ (st : KeyCache) (now : Int) (fetch : FetchOutcome) (tok : Token) (k : Nat),
      tok.alg.isRSAMethod = false →
      (getPublicKey st now fetch).1 = .ok k →
      (validateJWTLocally st now fetch (some tok)).1 =
        .error (.parseFailed (.wrongAlg tok.alg)))
  ∧ (∀ (tok : Token) (k : Nat) (now : Int),
      tok.alg.isRSAMethod = false →
      ValidateJWTToken (some tok) k now =
        .error (.parseFailed (.wrongAlg tok.alg))) := by
  constructor
  · intro st now fetch tok k halg hkey
    rcases hg : getPublicKey st now fetch with ⟨r, st'⟩
    rw [hg] at hkey
    simp at hkey
    subst hkey
    simp [validateJWTLocally, hg, parseWithClaims, halg]
  · intro tok k now halg
    simp [ValidateJWTToken, parseWithClaims, halg]

/-- C6 witness: an HS256 token whose symbolic signature would even match the
cached key of pair 5, presented unexpired, is rejected with the
wrong-algorithm error on both sides. -/
theorem c6_wrong_algorithm_witness :
    (validateJWTLocally ⟨some 5, 100⟩ 0 .httpError
        (some ⟨.HS256, ⟨"1", "a@b", false, "access", "iss", "1", 0, 100, 0⟩, 5⟩)).1 =
      .error (.parseFailed (.wrongAlg .HS256)) ∧
    ValidateJWTToken
        (some ⟨.HS256, ⟨"1", "a@b", false, "access", "iss", "1", 0, 100, 0⟩, 5⟩) 5 0 =
      .error (.parseFailed (.wrongAlg .HS256)) :=
  ⟨c6_wrong_algorithm_rejected.1 ⟨some 5, 100⟩ 0 .httpError
      ⟨.HS256, ⟨"1", "a@b", false, "access", "iss", "1", 0, 100, 0⟩, 5⟩ 5 rfl rfl,
    c6_wrong_algorithm_rejected.2
      ⟨.HS256, ⟨"1", "a@b", false, "access", "iss", "1", 0, 100, 0⟩, 5⟩ 5 0 rfl⟩

/-- Inversion of a successful parse: the token string decoded, the declared
algorithm is an RSA method, the signature matches the supplied public key,
the returned claims are the token's claims, and `now` lies in
[notBefore, expiresAt). -/
theorem parseWithClaims_ok (tok? : Option Token) (pubKey : Nat) (now : Int)
    (claims : JWTClaims) (h : parseWithClaims tok? pubKey now = .ok claims) :
    ∃ tok, tok? = some tok ∧ tok.alg.isRSAMethod = true ∧ tok.sig = pubKey ∧
      claims = tok.claims ∧ now < tok.claims.expiresAt ∧
      tok.claims.notBefore ≤ now := by
  rcases tok? with _ | tok
  · simp [parseWithClaims] at h
  · refine ⟨tok, rfl, ?_⟩
    simp only [parseWithClaims] at h
    split_ifs at h with h1 h2 h3 h4 <;> try simp at h
    have h1' : tok.alg.isRSAMethod = true := by
      cases hb : tok.alg.isRSAMethod
      · rw [hb] at h1; simp at h1
      · rfl
    have h2' : tok.sig = pubKey := by
      by_contra hcon
      exact h2 hcon
    refine ⟨h1', h2', h.symm, by omega, by omega⟩

/-- If the refetch path returns a key, the resulting state caches it. -/
theorem refetchPublicKey_ok_cachedKey (st : KeyCache) (now : Int)
    (fetch : FetchOutcome) (k : Nat) (st' : KeyCache)
    (h : refetchPublicKey st now fetch = (.ok k, st')) :
    st'.cachedPublicKey = some k := by
  cases fetch <;> simp [refetchPublicKey] at h
  obtain ⟨h1, h2⟩ := h
  subst h2
  simp [h1]

/-- If `getPublicKey` returns a key, that key is the cached key in the
resulting cache state (the cache hit returned the stored key, or the freshly
fetched key was just stored). -/
theorem getPublicKey_ok_cachedKey (st : KeyCache) (now : Int)
    (fetch : FetchOutcome) (k : Nat) (st' : KeyCache)
    (h : getPublicKey st now fetch = (.ok k, st')) :
    st'.cachedPublicKey = some k := by
  unfold getPublicKey at h
  rcases hc : st.cachedPublicKey with _ | k0 <;> rw [hc] at h <;> dsimp only at h
  · exact refetchPublicKey_ok_cachedKey st now fetch k st' h
  · by_cases ht : now < st.publicKeyExpiry
    · rw [if_pos ht] at h
      simp only [Prod.mk.injEq] at h
      obtain ⟨h1, h2⟩ := h
      subst h2
      simp at h1
      rw [hc, h1]
    · rw [if_neg ht] at h
      exact refetchPublicKey_ok_cachedKey st now fetch k st' h

/-- C1: the gateway's request authenticator produces an authenticated
identity only for a token whose signature verifies under the public key it
currently caches and whose token-kind claim is "access"; a token whose kind
claim is "refresh" is always rejected with an error, even when its
signature is valid and it is unexpired. -/
theorem c1_gateway_access_only :
    (∀ (st : KeyCache) (now : Int) (fetch : FetchOutcome) (tok? : Option Token)
        (claims : JWTClaims) (st' : KeyCache),
      validateJWTLocally st now fetch tok? = (.ok claims, st') →
      ∃ tok k, tok? = some tok ∧ st'.cachedPublicKey = some k ∧ tok.sig = k ∧
        tok.alg.isRSAMethod = true ∧ claims = tok.claims ∧
        claims.tokType = TokenTypeAccess)
  ∧ (∀ (st : KeyCache) (now : Int) (fetch : FetchOutcome) (tok : Token),
      tok.claims.tokType = TokenTypeRefresh →
      ∃ e, (validateJWTLocally st now fetch (some tok)).1 = .error e) := by
  constructor
  · intro st now fetch tok? claims st' h
    unfold validateJWTLocally at h
    rcases hg : getPublicKey st now fetch with ⟨r, st''⟩
    rw [hg] at h
    rcases r with e | pubKey
    · simp at h
    · dsimp only at h
      rcases hp : parseWithClaims tok? pubKey now with e | c <;> rw [hp] at h <;>
        dsimp only at h
      · simp at h
      · by_cases htype : c.tokType = TokenTypeAccess
        · rw [if_neg (by simp [htype])] at h
          simp only [Prod.mk.injEq, Except.ok.injEq] at h
          obtain ⟨h1, h2⟩ := h
          subst h2
          subst h1
          obtain ⟨tok, htok, ha, hs, hcc, _, _⟩ :=
            parseWithClaims_ok tok? pubKey now c hp
          exact ⟨tok, pubKey, htok,
            getPublicKey_ok_cachedKey st now fetch pubKey st'' hg, hs, ha, hcc,
            htype⟩
        · simp [htype] at h
  · intro st now fetch tok htype
    rcases hg : getPublicKey st now fetch with ⟨r, st'⟩
    rcases r with e | pubKey
    · exact ⟨.keyUnavailable e, by simp [validateJWTLocally, hg]⟩
    · rcases hp : parseWithClaims (some tok) pubKey now with e | c
      · exact ⟨.parseFailed e, by simp [validateJWTLocally, hg, hp]⟩
      · have hc : c = tok.claims := by
          obtain ⟨tok', htok', _, _, hcc, _, _⟩ :=
            parseWithClaims_ok (some tok) pubKey now c hp
          obtain rfl : tok' = tok := (Option.some.inj htok').symm
          exact hcc
        have hne : c.tokType ≠ TokenTypeAccess := by
          rw [hc, htype]
          decide
        exact ⟨.wrongTokenType, by simp [validateJWTLocally, hg, hp, hne]⟩

/-- C1 witness: with key pair 5 cached and valid, a concrete access token
signed by pair 5 is accepted (and satisfies the characterization), while
the corresponding refresh token — same signature, unexpired — errors. -/
theorem c1_gateway_access_only_witness :
    (∃ tok k,
      (some (⟨.RS256, ⟨"1", "a@b", false, "access", "iss", "1", 0, 100, 0⟩, 5⟩ : Token) :
          Option Token) = some tok ∧
      (⟨some 5, 100⟩ : KeyCache).cachedPublicKey = some k ∧ tok.sig = k ∧
      tok.alg.isRSAMethod = true ∧
      (⟨"1", "a@b", false, "access", "iss", "1", 0, 100, 0⟩ : JWTClaims) = tok.claims ∧
      (⟨"1", "a@b", false, "access", "iss", "1", 0, 100, 0⟩ : JWTClaims).tokType =
        TokenTypeAccess) ∧
    (∃ e, (validateJWTLocally ⟨some 5, 100⟩ 0 .httpError
        (some ⟨.RS256, ⟨"1", "a@b", false, "refresh", "iss", "1", 0, 100, 0⟩, 5⟩)).1 =
      .error e) :=
  ⟨c1_gateway_access_only.1 ⟨some 5, 100⟩ 0 .httpError
      (some ⟨.RS256, ⟨"1", "a@b", false, "access", "iss", "1", 0, 100, 0⟩, 5⟩)
      ⟨"1", "a@b", false, "access", "iss", "1", 0, 100, 0⟩ ⟨some 5, 100⟩ rfl,
    c1_gateway_access_only.2 ⟨some 5, 100⟩ 0 .httpError
      ⟨.RS256, ⟨"1", "a@b", false, "refresh", "iss", "1", 0, 100, 0⟩, 5⟩ rfl⟩

/-- C4: in Required mode, once a request presents a well-formed Bearer
header, any failure of local validation — key-distribution failures from
the cache included — aborts the request with 401 and the uniform error body
value, with no distinct status or message for any failure cause. -/
theorem c4_uniform_401 (decode : String → Option Token) (st : KeyCache)
    (now : Int) (fetch : FetchOutcome) (header token : String)
    (hform : goSplitN2Space header = ["Bearer", token])
    (hfail : ∃ e, (validateJWTLocally st now fetch (decode token)).1 = .error e) :
    (AuthMiddleware decode st now fetch header).1 =
      .abort 401 "Invalid or expired token" := by
  have hne : header ≠ "" := by
    intro hcon
    subst hcon
    have : goSplitN2Space "" = [""] := by decide
    rw [this] at hform
    simp at hform
  obtain ⟨e, he⟩ := hfail
  rcases hv : validateJWTLocally st now fetch (decode token) with ⟨r, st'⟩
  rw [hv] at he
  simp only at he
  subst he
  unfold AuthMiddleware
  rw [if_neg hne, hform]
  simp [hv]

/-- C4 witness: a Bearer request hitting a cold cache whose key fetch fails
at the HTTP layer gets the uniform 401 body. -/
theorem c4_uniform_401_witness :
    (AuthMiddleware (fun _ => none) ⟨none, 0⟩ 0 .httpError "Bearer x").1 =
      .abort 401 "Invalid or expired token" :=
  c4_uniform_401 (fun _ => none) ⟨none, 0⟩ 0 .httpError "Bearer x" "x"
    (by decide) ⟨.keyUnavailable .httpError, rfl⟩

/-- C8: logout is a designed no-op: for every refresh-token string and user
id the service operation returns success and leaves the issuer state
untouched, the endpoint acknowledges with 200, and a refresh token is
validated identically — in particular still accepted — after a logout of
that same token, since no revocation is recorded anywhere. -/
theorem c8_logout_noop :
    (∀ (st : AuthState) (rt : String) (uid : Nat),
      Logout st rt uid = (.ok (), st))
  ∧ (∀ (st : AuthState) (s rt : String),
      LogoutHandler st (some s) rt = (.okResp 200 "Logged out successfully", st))
  ∧ (∀ (st : AuthState) (rt : String) (uid : Nat) (tok? : Option Token)
        (k : Nat) (now : Int),
      ValidateRefreshToken (Logout st rt uid).2 tok? k now =
        ValidateRefreshToken st tok? k now)
  ∧ (∀ (st : AuthState) (rt : String) (uid : Nat) (tok? : Option Token)
        (k : Nat) (now : Int) (u : User),
      ValidateRefreshToken st tok? k now = .ok u →
      ValidateRefreshToken (Logout st rt uid).2 tok? k now = .ok u) :=
  ⟨fun _ _ _ => rfl, fun _ _ _ => rfl, fun _ _ _ _ _ _ => rfl,
    fun _ _ _ _ _ _ _ h => h⟩

/-- C8 witness: a concrete valid refresh token is still accepted, with the
same reconstructed user, after logging out with that very token. -/
theorem c8_logout_noop_witness :
    ValidateRefreshToken (Logout ⟨[]⟩ "the-refresh-token" 1).2
        (some ⟨.RS256, ⟨"1", "a@b", false, "refresh", "iss", "1", 0, 100, 0⟩, 5⟩)
        5 0 = .ok ⟨1, "a@b", "", "", false⟩ :=
  c8_logout_noop.2.2.2 ⟨[]⟩ "the-refresh-token" 1
    (some ⟨.RS256, ⟨"1", "a@b", false, "refresh", "iss", "1", 0, 100, 0⟩, 5⟩)
    5 0 ⟨1, "a@b", "", "", false⟩ rfl

/-- C10: a refresh token that is signature-valid, unexpired and of type
"refresh" is accepted even when its user_id claim does not parse as a
decimal number: the parse error is discarded, a user with id 0 is rebuilt
from the claims alone without consulting the user table (the result is
independent of the issuer state), and the handler mints and returns a fresh
pair whose access token carries UserID "0", with no error. -/
theorem c10_refresh_unparseable_userid (cfg : JWTSettings) (st : AuthState)
    (tok : Token) (kp : Nat) (now : Int)
    (halg : tok.alg.isRSAMethod = true) (hsig : tok.sig = kp)
    (hexp : now < tok.claims.expiresAt) (hnbf : tok.claims.notBefore ≤ now)
    (htype : tok.claims.tokType = TokenTypeRefresh)
    (hbad : goParseUint64 tok.claims.userID = (0, false)) :
    ValidateRefreshToken st (some tok) kp now =
      .ok (refreshReconstructedUser tok.claims) ∧
    (refreshReconstructedUser tok.claims).id = 0 ∧
    (∀ st' : AuthState, ValidateRefreshToken st' (some tok) kp now =
      ValidateRefreshToken st (some tok) kp now) ∧
    RefreshHandler cfg kp kp st (some tok) now =
      .success
        (GenerateTokenPair cfg kp (refreshReconstructedUser tok.claims) now).1
        (GenerateTokenPair cfg kp (refreshReconstructedUser tok.claims) now).2.1
        "Bearer" cfg.accessTokenDuration ∧
    (GenerateTokenPair cfg kp (refreshReconstructedUser tok.claims) now).1.claims.userID
      = "0" := by
  have h3 : ¬ (tok.claims.expiresAt ≤ now) := by omega
  have h4 : ¬ (now < tok.claims.notBefore) := by omega
  have hparse : parseWithClaims (some tok) kp now = .ok tok.claims := by
    simp [parseWithClaims, halg, hsig, h3, h4]
  have hvrt : ValidateRefreshToken st (some tok) kp now =
      .ok (refreshReconstructedUser tok.claims) := by
    simp [ValidateRefreshToken, hparse, htype]
  refine ⟨hvrt, ?_, fun st' => rfl, ?_, ?_⟩
  · simp [refreshReconstructedUser, hbad]
  · simp [RefreshHandler, hvrt, GenerateTokenPair]
  · simp [GenerateTokenPair, refreshReconstructedUser, hbad]
    rfl

/-- C10 witness: a refresh token whose user_id claim is the non-numeric
string "abc" is accepted and yields a fresh pair for user id 0. -/
theorem c10_refresh_unparseable_userid_witness :
    ValidateRefreshToken ⟨[]⟩
        (some ⟨.RS256, ⟨"abc", "a@b", true, "refresh", "iss", "abc", 0, 100, 0⟩, 5⟩)
        5 0 =
      .ok (refreshReconstructedUser
        ⟨"abc", "a@b", true, "refresh", "iss", "abc", 0, 100, 0⟩) ∧
    (refreshReconstructedUser
        ⟨"abc", "a@b", true, "refresh", "iss", "abc", 0, 100, 0⟩).id = 0 ∧
    (∀ st' : AuthState, ValidateRefreshToken st'
        (some ⟨.RS256, ⟨"abc", "a@b", true, "refresh", "iss", "abc", 0, 100, 0⟩, 5⟩)
        5 0 =
      ValidateRefreshToken ⟨[]⟩
        (some ⟨.RS256, ⟨"abc", "a@b", true, "refresh", "iss", "abc", 0, 100, 0⟩, 5⟩)
        5 0) ∧
    RefreshHandler ⟨1800, 604800, "iss"⟩ 5 5 ⟨[]⟩
        (some ⟨.RS256, ⟨"abc", "a@b", true, "refresh", "iss", "abc", 0, 100, 0⟩, 5⟩)
        0 =
      .success
        (GenerateTokenPair ⟨1800, 604800, "iss"⟩ 5
          (refreshReconstructedUser
            ⟨"abc", "a@b", true, "refresh", "iss", "abc", 0, 100, 0⟩) 0).1
        (GenerateTokenPair ⟨1800, 604800, "iss"⟩ 5
          (refreshReconstructedUser
            ⟨"abc", "a@b", true, "refresh", "iss", "abc", 0, 100, 0⟩) 0).2.1
        "Bearer" 1800 ∧
    (GenerateTokenPair ⟨1800, 604800, "iss"⟩ 5
        (refreshReconstructedUser
          ⟨"abc", "a@b", true, "refresh", "iss", "abc", 0, 100, 0⟩) 0).1.claims.userID
      = "0" :=
  c10_refresh_unparseable_userid ⟨1800, 604800, "iss"⟩ ⟨[]⟩
    ⟨.RS256, ⟨"abc", "a@b", true, "refresh", "iss", "abc", 0, 100, 0⟩, 5⟩ 5 0
    rfl rfl (by decide) (by decide) rfl (by decide)

/-- C3 (divergence witness): the two credential-failure causes are
distinguishable to the caller.  With a user table holding only
alice@example.com, a login with an unknown email produces the 401 body
"user not found" while a login with a wrong password for an existing user
produces the 401 body "invalid credentials" — the handler returns the
internal error text verbatim, so the response bodies differ and the claim's
single generic response is not what the code sends. -/
theorem c3_login_error_bodies_differ :
    LoginHandler ⟨1800, 604800, "home-server-auth"⟩ 1
        ⟨[⟨1, "alice@example.com", "Alice", hashPassword "correct-pw", false⟩]⟩
        "bob@example.com" "correct-pw" 0 = .errorResp 401 "user not found" ∧
    LoginHandler ⟨1800, 604800, "home-server-auth"⟩ 1
        ⟨[⟨1, "alice@example.com", "Alice", hashPassword "correct-pw", false⟩]⟩
        "alice@example.com" "wrong-pw" 0 = .errorResp 401 "invalid credentials" ∧
    ("user not found" : String) ≠ "invalid credentials" :=
  ⟨rfl, rfl, by decide⟩

/-- C7 (counterexample): `ProxyRequest` of gateway/services/proxy.go answers
502 with the per-service message after exactly one transport attempt, not
after exhausting the configured retries (the configured default
api.max_retries is 3, which would mean four attempts). -/
theorem c7_counterexample_no_retry :
    ProxyRequest "stats" true .failure =
      (.jsonError 502 "Service stats is unavailable", 1) ∧ (1 : Nat) ≠ 3 + 1 :=
  ⟨rfl, by decide⟩

/-- The retry loop of the discovery-based forwarder issues one attempt per
iteration and `remaining + 1` attempts in total when the transport fails on
every attempt. -/
theorem appProxyLoop_all_fail (transport : Nat → Option HttpResponse)
    (h : ∀ i, transport i = none) :
    ∀ remaining attempt,
      appProxyLoop transport attempt remaining = (none, remaining + 1) := by
  intro remaining
  induction remaining with
  | zero => intro attempt; simp [appProxyLoop, h]
  | succ m ih => intro attempt; simp [appProxyLoop, h, ih]

/-- C7 (amended): the proxy forwarder the gateway routes use
(gateway/services/proxy.go) does not retry: it relays a backend response
verbatim, and on any transport failure it answers 502 with the per-service
unavailability message after a single attempt.  The retry-up-to-max with a
delay between attempts exists only in the discovery-based forwarder of
gateway/app/services/services.go, which issues maxRetries + 1 transport
attempts before giving up when every attempt fails, and returns the first
successful response. -/
theorem c7_amended_proxy_behaviour :
    (∀ (name : String) (r : HttpResponse),
      ProxyRequest name true (.response r) = (.relayed r, 1))
  ∧ (∀ name : String,
      ProxyRequest name true .failure =
        (.jsonError 502 ("Service " ++ name ++ " is unavailable"), 1))
  ∧ (∀ (maxRetries : Nat) (transport : Nat → Option HttpResponse),
      (∀ i, transport i = none) →
      appProxyRequest maxRetries transport = (none, maxRetries + 1))
  ∧ (∀ (maxRetries : Nat) (transport : Nat → Option HttpResponse)
        (r : HttpResponse),
      transport 0 = some r →
      appProxyRequest maxRetries transport = (some r, 1)) := by
  refine ⟨fun name r => rfl, fun name => rfl, ?_, ?_⟩
  · intro maxRetries transport h
    exact appProxyLoop_all_fail transport h maxRetries 0
  · intro maxRetries transport r h
    cases maxRetries <;> simp [appProxyRequest, appProxyLoop, h]

/-- C7 witness: with the configured default of 3 retries and a transport
that always fails, the discovery-based forwarder makes 4 attempts and gives
up, while the routes' forwarder answers 502 for the stats service. -/
theorem c7_amended_proxy_behaviour_witness :
    ProxyRequest "stats" true .failure =
      (.jsonError 502 ("Service " ++ "stats" ++ " is unavailable"), 1) ∧
    appProxyRequest 3 (fun _ => none) = (none, 3 + 1) :=
  ⟨c7_amended_proxy_behaviour.2.1 "stats",
    c7_amended_proxy_behaviour.2.2.1 3 (fun _ => none) (fun _ => rfl)⟩

/-- The cold-storm invariant holds initially. -/
theorem coldInv_init (c0 : Option Nat) (e0 now : Int) (key n : Nat) :
    ColdInv c0 e0 now key n (initSys c0 e0 n) := by
  refine ⟨Or.inl ⟨rfl, rfl, rfl, ?_⟩, ?_, ?_⟩
  · intro r hr
    have := Multiset.eq_of_mem_replicate hr
    simp at this
  · intro r hr
    have := Multiset.eq_of_mem_replicate hr
    simp at this
  · simp [initSys]

/-- The cold-storm invariant is preserved by every step. -/
theorem coldInv_step (c0 : Option Nat) (e0 now : Int) (key n : Nat)
    (hcold : c0 = none ∨ e0 ≤ now) (s s' : CacheSys) (pc pc' : TPc)
    (hstep : CStep now key pc pc' s s')
    (hinv : ColdInv c0 e0 now key n s) : ColdInv c0 e0 now key n s' := by
  obtain ⟨hbranch, hdone, hcard⟩ := hinv
  cases hstep with
  | rlock σ rest hw hth =>
    refine ⟨?_, ?_, ?_⟩
    · rcases hbranch with ⟨h1, h2, h3, h4⟩ | h
      · refine Or.inl ⟨h1, h2, h3, ?_⟩
        intro r hr
        rcases Multiset.mem_cons.1 hr with h5 | h5
        · simp at h5
        · exact h4 r (hth ▸ Multiset.mem_cons_of_mem h5)
      · exact Or.inr h
    · intro r hr
      rcases Multiset.mem_cons.1 hr with h5 | h5
      · simp at h5
      · exact hdone r (hth ▸ Multiset.mem_cons_of_mem h5)
    · have : Multiset.card (TPc.start ::ₘ rest) = n := hth ▸ hcard
      simpa using this
  | rhit σ rest k hck ht hth =>
    have hb2 : s.fetchCount = 1 ∧ s.cachedPublicKey = some key ∧
        s.publicKeyExpiry = now + 3600 := by
      rcases hbranch with ⟨h1, h2, h3, h4⟩ | h
      · rcases hcold with hc | hc
        · rw [h2, hc] at hck
          cases hck
        · rw [h3] at ht
          omega
      · exact h
    have hkey : k = key :=
      (Option.some.inj ((hb2.2.1).symm.trans hck)).symm
    refine ⟨Or.inr hb2, ?_, ?_⟩
    · intro r hr
      rcases Multiset.mem_cons.1 hr with h5 | h5
      · simp at h5
        rw [h5, hkey]
      · exact hdone r (hth ▸ Multiset.mem_cons_of_mem h5)
    · have : Multiset.card (TPc.rLocked ::ₘ rest) = n := hth ▸ hcard
      simpa using this
  | rmiss σ rest hg hth =>
    refine ⟨?_, ?_, ?_⟩
    · rcases hbranch with ⟨h1, h2, h3, h4⟩ | h
      · refine Or.inl ⟨h1, h2, h3, ?_⟩
        intro r hr
        rcases Multiset.mem_cons.1 hr with h5 | h5
        · simp at h5
        · exact h4 r (hth ▸ Multiset.mem_cons_of_mem h5)
      · exact Or.inr h
    · intro r hr
      rcases Multiset.mem_cons.1 hr with h5 | h5
      · simp at h5
      · exact hdone r (hth ▸ Multiset.mem_cons_of_mem h5)
    · have : Multiset.card (TPc.rLocked ::ₘ rest) = n := hth ▸ hcard
      simpa using this
  | wlock σ rest hw hr0 hth =>
    refine ⟨?_, ?_, ?_⟩
    · rcases hbranch with ⟨h1, h2, h3, h4⟩ | h
      · refine Or.inl ⟨h1, h2, h3, ?_⟩
        intro r hr
        rcases Multiset.mem_cons.1 hr with h5 | h5
        · simp at h5
        · exact h4 r (hth ▸ Multiset.mem_cons_of_mem h5)
      · exact Or.inr h
    · intro r hr
      rcases Multiset.mem_cons.1 hr with h5 | h5
      · simp at h5
      · exact hdone r (hth ▸ Multiset.mem_cons_of_mem h5)
    · have : Multiset.card (TPc.needWrite ::ₘ rest) = n := hth ▸ hcard
      simpa using this
  | whit σ rest k hck ht hth =>
    have hb2 : s.fetchCount = 1 ∧ s.cachedPublicKey = some key ∧
        s.publicKeyExpiry = now + 3600 := by
      rcases hbranch with ⟨h1, h2, h3, h4⟩ | h
      · rcases hcold with hc | hc
        · rw [h2, hc] at hck
          cases hck
        · rw [h3] at ht
          omega
      · exact h
    have hkey : k = key :=
      (Option.some.inj ((hb2.2.1).symm.trans hck)).symm
    refine ⟨Or.inr hb2, ?_, ?_⟩
    · intro r hr
      rcases Multiset.mem_cons.1 hr with h5 | h5
      · simp at h5
        rw [h5, hkey]
      · exact hdone r (hth ▸ Multiset.mem_cons_of_mem h5)
    · have : Multiset.card (TPc.wLocked ::ₘ rest) = n := hth ▸ hcard
      simpa using this
  | wfetch σ rest hg hth =>
    have hb1 : s.fetchCount = 0 := by
      rcases hbranch with ⟨h1, _, _, _⟩ | ⟨_, h2, h3⟩
      · exact h1
      · exfalso
        rcases hg with hc | hc
        · rw [h2] at hc
          cases hc
        · rw [h3] at hc
          omega
    refine ⟨Or.inr ⟨by simp [hb1], rfl, rfl⟩, ?_, ?_⟩
    · intro r hr
      rcases Multiset.mem_cons.1 hr with h5 | h5
      · simp at h5
        exact h5
      · exact hdone r (hth ▸ Multiset.mem_cons_of_mem h5)
    · have : Multiset.card (TPc.wLocked ::ₘ rest) = n := hth ▸ hcard
      simpa using this

/-- The cold-storm invariant holds in every reachable state. -/
theorem coldInv_reach (c0 : Option Nat) (e0 now : Int) (key n : Nat)
    (hcold : c0 = none ∨ e0 ≤ now) (σ : CacheSys)
    (h : SysReach now key (initSys c0 e0 n) σ) :
    ColdInv c0 e0 now key n σ := by
  induction h with
  | refl => exact coldInv_init c0 e0 now key n
  | tail hab hbc ih =>
    obtain ⟨pc, pc', hstep⟩ := hbc
    exact coldInv_step c0 e0 now key n hcold _ _ pc pc' hstep ih

/-- The warm invariant holds initially. -/
theorem warmInv_init (k : Nat) (e0 now : Int) (n : Nat) :
    WarmInv k e0 now (initSys (some k) e0 n) := by
  refine ⟨rfl, rfl, rfl, rfl, ?_, ?_, ?_⟩
  · intro hr
    have := Multiset.eq_of_mem_replicate hr
    simp at this
  · intro hr
    have := Multiset.eq_of_mem_replicate hr
    simp at this
  · intro r hr
    have := Multiset.eq_of_mem_replicate hr
    simp at this

/-- The warm invariant is preserved by every step. -/
theorem warmInv_step (k : Nat) (e0 now : Int) (key : Nat) (hvalid : now < e0)
    (s s' : CacheSys) (pc pc' : TPc) (hstep : CStep now key pc pc' s s')
    (hinv : WarmInv k e0 now s) : WarmInv k e0 now s' := by
  obtain ⟨hck, hex, hw, hf, hnw, hwl, hdone⟩ := hinv
  cases hstep with
  | rlock σ rest hw0 hth =>
    refine ⟨hck, hex, hw, hf, ?_, ?_, ?_⟩
    · intro hr
      rcases Multiset.mem_cons.1 hr with h5 | h5
      · cases h5
      · exact hnw (hth ▸ Multiset.mem_cons_of_mem h5)
    · intro hr
      rcases Multiset.mem_cons.1 hr with h5 | h5
      · cases h5
      · exact hwl (hth ▸ Multiset.mem_cons_of_mem h5)
    · intro r hr
      rcases Multiset.mem_cons.1 hr with h5 | h5
      · cases h5
      · exact hdone r (hth ▸ Multiset.mem_cons_of_mem h5)
  | rhit σ rest k0 hck0 ht hth =>
    have hk0 : k0 = k := Option.some.inj (hck0.symm.trans hck)
    refine ⟨hck, hex, hw, hf, ?_, ?_, ?_⟩
    · intro hr
      rcases Multiset.mem_cons.1 hr with h5 | h5
      · cases h5
      · exact hnw (hth ▸ Multiset.mem_cons_of_mem h5)
    · intro hr
      rcases Multiset.mem_cons.1 hr with h5 | h5
      · cases h5
      · exact hwl (hth ▸ Multiset.mem_cons_of_mem h5)
    · intro r hr
      rcases Multiset.mem_cons.1 hr with h5 | h5
      · simp at h5
        rw [h5, hk0]
      · exact hdone r (hth ▸ Multiset.mem_cons_of_mem h5)
  | rmiss σ rest hg hth =>
    exfalso
    rcases hg with hc | hc
    · rw [hck] at hc
      cases hc
    · rw [hex] at hc
      omega
  | wlock σ rest hw0 hr0 hth =>
    exact absurd (hth ▸ Multiset.mem_cons_self _ _) hnw
  | whit σ rest k0 hck0 ht hth =>
    exact absurd (hth ▸ Multiset.mem_cons_self _ _) hwl
  | wfetch σ rest hg hth =>
    exact absurd (hth ▸ Multiset.mem_cons_self _ _) hwl

/-- The warm invariant holds in every reachable state. -/
theorem warmInv_reach (k : Nat) (e0 now : Int) (key n : Nat)
    (hvalid : now < e0) (σ : CacheSys)
    (h : SysReach now key (initSys (some k) e0 n) σ) :
    WarmInv k e0 now σ := by
  induction h with
  | refl => exact warmInv_init k e0 now n
  | tail hab hbc ih =>
    obtain ⟨pc, pc', hstep⟩ := hbc
    exact warmInv_step k e0 now key hvalid _ _ pc pc' hstep ih

/-- Under the warm invariant, every goroutine that has not returned has an
enabled step, and it is a read-path step: no fast-path caller ever waits. -/
theorem warm_progress (k : Nat) (e0 now : Int) (key : Nat) (hvalid : now < e0)
    (σ : CacheSys) (hinv : WarmInv k e0 now σ) :
    ∀ pc ∈ σ.threads, (∀ r, pc ≠ TPc.done r) →
      ∃ pc' σ', CStep now key pc pc' σ σ' := by
  intro pc hmem hnd
  obtain ⟨rest, hrest⟩ := Multiset.exists_cons_of_mem hmem
  cases pc with
  | start => exact ⟨_, _, CStep.rlock σ rest hinv.2.2.1 hrest⟩
  | rLocked =>
    exact ⟨_, _, CStep.rhit σ rest k hinv.1 (by rw [hinv.2.1]; exact hvalid) hrest⟩
  | needWrite => exact absurd (hrest ▸ Multiset.mem_cons_self _ _) hinv.2.2.2.2.1
  | wLocked => exact absurd (hrest ▸ Multiset.mem_cons_self _ _) hinv.2.2.2.2.2.1
  | done r => exact absurd rfl (hnd r)

/-- C9: when many goroutines call `getPublicKey` on a cold or expired cache,
every completed interleaving issues exactly one outbound fetch (the
write-lock double-check collapses the storm) and every caller receives the
fetched key; and from a warm cache every reachable state still has the
original key, the write lock is never sought or taken, no fetch is issued,
every running caller has an enabled read-path step (readers never block each
other), and every finished caller received the cached key. -/
theorem c9_single_fetch_nonblocking_readers :
    (∀ (c0 : Option Nat) (e0 now : Int) (key n : Nat) (σend : CacheSys),
      (c0 = none ∨ e0 ≤ now) → 1 ≤ n →
      SysReach now key (initSys c0 e0 n) σend → allDone σend →
      σend.fetchCount = 1 ∧ ∀ r, TPc.done r ∈ σend.threads → r = .ok key)
  ∧ (∀ (k : Nat) (e0 now : Int) (key n : Nat) (σ : CacheSys),
      now < e0 →
      SysReach now key (initSys (some k) e0 n) σ →
      σ.cachedPublicKey = some k ∧ σ.writer = false ∧ σ.fetchCount = 0 ∧
      TPc.needWrite ∉ σ.threads ∧ TPc.wLocked ∉ σ.threads ∧
      (∀ pc ∈ σ.threads, (∀ r, pc ≠ TPc.done r) →
        ∃ pc' σ', CStep now key pc pc' σ σ') ∧
      (∀ r, TPc.done r ∈ σ.threads → r = .ok k)) := by
  constructor
  · intro c0 e0 now key n σend hcold hn hreach hall
    obtain ⟨hbranch, hdone, hcard⟩ := coldInv_reach c0 e0 now key n hcold σend hreach
    refine ⟨?_, hdone⟩
    rcases hbranch with ⟨h1, h2, h3, h4⟩ | ⟨h1, _, _⟩
    · exfalso
      have hpos : 0 < Multiset.card σend.threads := by omega
      obtain ⟨pc, hpc⟩ := Multiset.card_pos_iff_exists_mem.1 hpos
      obtain ⟨r, hr⟩ := hall pc hpc
      exact h4 r (hr ▸ hpc)
    · exact h1
  · intro k e0 now key n σ hvalid hreach
    have hinv := warmInv_reach k e0 now key n hvalid σ hreach
    exact ⟨hinv.1, hinv.2.2.1, hinv.2.2.2.1, hinv.2.2.2.2.1, hinv.2.2.2.2.2.1,
      warm_progress k e0 now key hvalid σ hinv, hinv.2.2.2.2.2.2⟩

/-- C9 witness: a concrete completed execution from a cold cache — one
goroutine takes RLock, misses, takes the write lock, fetches key 7 and
finishes — has fetch count 1 and result key 7; and from a warm cache with
key 5 the initial state already satisfies the non-blocking read-path
conclusions. -/
theorem c9_single_fetch_nonblocking_readers_witness :
    ((⟨some 7, 0 + 3600, false, 0, 1, {TPc.done (.ok 7)}⟩ : CacheSys).fetchCount = 1 ∧
      ∀ r, TPc.done r ∈
          (⟨some 7, 0 + 3600, false, 0, 1, {TPc.done (.ok 7)}⟩ : CacheSys).threads →
        r = .ok 7) ∧
    ((initSys (some 5) 10 2).cachedPublicKey = some 5 ∧
      (initSys (some 5) 10 2).writer = false ∧
      (initSys (some 5) 10 2).fetchCount = 0 ∧
      TPc.needWrite ∉ (initSys (some 5) 10 2).threads ∧
      TPc.wLocked ∉ (initSys (some 5) 10 2).threads ∧
      (∀ pc ∈ (initSys (some 5) 10 2).threads, (∀ r, pc ≠ TPc.done r) →
        ∃ pc' σ', CStep 0 9 pc pc' (initSys (some 5) 10 2) σ') ∧
      (∀ r, TPc.done r ∈ (initSys (some 5) 10 2).threads → r = .ok 5)) := by
  constructor
  · refine c9_single_fetch_nonblocking_readers.1 none 0 0 7 1
      ⟨some 7, 0 + 3600, false, 0, 1, {TPc.done (.ok 7)}⟩
      (Or.inl rfl) (by decide) ?_ ?_
    · refine Relation.ReflTransGen.head ⟨_, _, CStep.rlock _ 0 rfl rfl⟩ ?_
      refine Relation.ReflTransGen.head ⟨_, _, CStep.rmiss _ 0 (Or.inl rfl) rfl⟩ ?_
      refine Relation.ReflTransGen.head ⟨_, _, CStep.wlock _ 0 rfl rfl rfl⟩ ?_
      refine Relation.ReflTransGen.head ⟨_, _, CStep.wfetch _ 0 (Or.inl rfl) rfl⟩ ?_
      exact Relation.ReflTransGen.refl
    · intro pc hpc
      exact ⟨.ok 7, Multiset.mem_singleton.1 hpc⟩
  · exact c9_single_fetch_nonblocking_readers.2 5 10 0 9 2
      (initSys (some 5) 10 2) (by decide) Relation.ReflTransGen.refl

end HomeServer
